import Mathlib

/-!
Verification of the RISC-V 64 architecture module of the LibAFL QEMU layer
(`libafl_qemu/src/arch/riscv64.rs`): the register identity model, the
exit-argument slot map, and the calling-convention-aware function-argument
accessors, with their error taxonomy.

Machine integers are modelled as `Nat`/`Int`; register values (`GuestReg`,
`u64` in the source) only pass through this layer, no arithmetic is performed
on them. Fallible operations return `Except` (or `Option` for the derived
integer-to-register conversion, where `none` models the conversion failure).
-/

namespace LibAFLQemu.RiscV64

/-- Guest machine word (`GuestReg = u64` in the source). Values are only
carried across the accessor boundary; no arithmetic is done on them here. -/
abbrev GuestReg := Nat

/-- The `Regs` enumeration from `riscv64.rs` (lines 13-49): every RISC-V
general-purpose register plus the `Pc` sentinel used only for PC read/write. -/
inductive Regs where
  | Zero | Ra | Sp | Gp | Tp | T0 | T1 | T2 | S0 | S1
  | A0 | A1 | A2 | A3 | A4 | A5 | A6 | A7
  | S2 | S3 | S4 | S5 | S6 | S7 | S8 | S9 | S10 | S11
  | T3 | T4 | T5 | T6
  | Pc
  deriving DecidableEq, Repr

/-- The `#[repr(i32)]` discriminants of `Regs` (the `IntoPrimitive` direction):
each register's stable native integer identity, as written in the source. -/
def Regs.to_index : Regs → Int
  | .Zero => 0
  | .Ra => 1
  | .Sp => 2
  | .Gp => 3
  | .Tp => 4
  | .T0 => 5
  | .T1 => 6
  | .T2 => 7
  | .S0 => 8
  | .S1 => 9
  | .A0 => 10
  | .A1 => 11
  | .A2 => 12
  | .A3 => 13
  | .A4 => 14
  | .A5 => 15
  | .A6 => 16
  | .A7 => 17
  | .S2 => 18
  | .S3 => 19
  | .S4 => 20
  | .S5 => 21
  | .S6 => 22
  | .S7 => 23
  | .S8 => 24
  | .S9 => 25
  | .S10 => 26
  | .S11 => 27
  | .T3 => 28
  | .T4 => 29
  | .T5 => 30
  | .T6 => 31
  | .Pc => 32

/-- The `TryFromPrimitive` direction derived on `Regs`: an `i32` converts to the
register with that discriminant, and to no register otherwise (`none` models
the invalid-register failure of the derived conversion). -/
def Regs.from_index (i : Int) : Option Regs :=
  if i = 0 then some .Zero
  else if i = 1 then some .Ra
  else if i = 2 then some .Sp
  else if i = 3 then some .Gp
  else if i = 4 then some .Tp
  else if i = 5 then some .T0
  else if i = 6 then some .T1
  else if i = 7 then some .T2
  else if i = 8 then some .S0
  else if i = 9 then some .S1
  else if i = 10 then some .A0
  else if i = 11 then some .A1
  else if i = 12 then some .A2
  else if i = 13 then some .A3
  else if i = 14 then some .A4
  else if i = 15 then some .A5
  else if i = 16 then some .A6
  else if i = 17 then some .A7
  else if i = 18 then some .S2
  else if i = 19 then some .S3
  else if i = 20 then some .S4
  else if i = 21 then some .S5
  else if i = 22 then some .S6
  else if i = 23 then some .S7
  else if i = 24 then some .S8
  else if i = 25 then some .S9
  else if i = 26 then some .S10
  else if i = 27 then some .S11
  else if i = 28 then some .T3
  else if i = 29 then some .T4
  else if i = 30 then some .T5
  else if i = 31 then some .T6
  else if i = 32 then some .Pc
  else none

/-- The `Regs::Fp` alias constant (`riscv64.rs` line 71): a named constant bound
to `Regs::S0`, introducing no new variant or integer value. -/
def Regs.Fp : Regs := Regs.S0

/-- Modelled from the spec: `ExitArgs` from the `sync_exit` module (declared
outside the provided sources): the eight semantic exit-protocol slots — return
value, command, and six ordered call arguments. -/
inductive ExitArgs where
  | Ret | Cmd | Arg1 | Arg2 | Arg3 | Arg4 | Arg5 | Arg6
  deriving DecidableEq, Repr

/-- The literal slot-to-register table built inside `get_exit_arch_regs` (the
`enum_map!` literal, `riscv64.rs` lines 55-64), as a total function. -/
def exitArchRegsTable : ExitArgs → Regs
  | .Ret => .A0
  | .Cmd => .A0
  | .Arg1 => .A1
  | .Arg2 => .A2
  | .Arg3 => .A3
  | .Arg4 => .A4
  | .Arg5 => .A5
  | .Arg6 => .A6

/-- State of the `EXIT_ARCH_REGS : OnceLock<EnumMap<ExitArgs, Regs>>` static:
`none` before first initialization, `some m` once the cell holds the map. -/
abbrev ExitRegsCache := Option (ExitArgs → Regs)

/-- `get_exit_arch_regs()` (`riscv64.rs` lines 53-66): `OnceLock::get_or_init`
with the literal table. Explicit state passing: the function takes the cell
state and returns the mapping together with the updated cell state. -/
def get_exit_arch_regs (cache : ExitRegsCache) : (ExitArgs → Regs) × ExitRegsCache :=
  match cache with
  | some m => (m, some m)
  | none => (exitArchRegsTable, some exitArchRegsTable)

/-- Modelled from the spec: `CallingConvention` (declared outside the provided
sources) — a closed tag identifying an argument-passing scheme, used only for
validation. Only the C-like `Cdecl` scheme is supported by this architecture
module; `Other` stands for any unsupported scheme, which must be rejected. -/
inductive CallingConvention where
  | Cdecl
  | Other
  deriving DecidableEq, Repr

/-- Modelled from the spec: `QemuRWErrorKind` (declared outside the provided
sources) — whether the failing access was a read or a write. -/
inductive QemuRWErrorKind where
  | Read
  | Write
  deriving DecidableEq, Repr

/-- Modelled from the spec: `QemuRWError` (declared outside the provided
sources). `wrongCallingConvention` is the ConventionMismatch error carrying the
expected and the supplied conventions; `wrongArgument` is the
InvalidArgumentIndex error carrying the offending index as an `i32`. -/
inductive QemuRWError where
  | wrongCallingConvention (kind : QemuRWErrorKind) (expected got : CallingConvention)
  | wrongArgument (kind : QemuRWErrorKind) (idx : Int)
  deriving DecidableEq, Repr

/-- Modelled from the spec: `QemuRWError::check_conv` (declared outside the
provided sources) — validate the supplied convention against the expected one,
failing with ConventionMismatch carrying both when they differ. -/
def QemuRWError.check_conv (kind : QemuRWErrorKind) (expected got : CallingConvention) :
    Except QemuRWError Unit :=
  if got = expected then Except.ok () else Except.error (.wrongCallingConvention kind expected got)

/-- Modelled from the spec: `QemuRWError::new_argument_error` (declared outside
the provided sources) — build the InvalidArgumentIndex error. -/
def QemuRWError.new_argument_error (kind : QemuRWErrorKind) (idx : Int) : QemuRWError :=
  .wrongArgument kind idx

/-- The guest CPU register file: the state read and mutated through the
external guest-CPU accessor. -/
structure CPU where
  regs : Regs → GuestReg

/-- External accessor `read_reg`: project one register's value. -/
def CPU.read_reg (cpu : CPU) (r : Regs) : GuestReg := cpu.regs r

/-- External accessor `write_reg`: update one register's value. -/
def CPU.write_reg (cpu : CPU) (r : Regs) (v : GuestReg) : CPU :=
  ⟨fun x => if x = r then v else cpu.regs x⟩

/-- `read_function_argument` (`riscv64.rs` lines 107-131). `idx` is a `u8` in
the source, so a `Nat` below 256. The second component records the registers
read through the external accessor, so error paths are seen to access none.
The error index is `i32::from(r)`, hence the cast to `Int`. -/
def read_function_argument (cpu : CPU) (conv : CallingConvention) (idx : Nat) :
    Except QemuRWError GuestReg × List Regs :=
  match QemuRWError.check_conv .Read .Cdecl conv with
  | .error e => (.error e, [])
  | .ok _ =>
    if idx = 0 then (.ok (cpu.read_reg .A0), [.A0])
    else if idx = 1 then (.ok (cpu.read_reg .A1), [.A1])
    else if idx = 2 then (.ok (cpu.read_reg .A2), [.A2])
    else if idx = 3 then (.ok (cpu.read_reg .A3), [.A3])
    else if idx = 4 then (.ok (cpu.read_reg .A4), [.A4])
    else if idx = 5 then (.ok (cpu.read_reg .A5), [.A5])
    else if idx = 6 then (.ok (cpu.read_reg .A6), [.A6])
    else if idx = 7 then (.ok (cpu.read_reg .A7), [.A7])
    else (.error (QemuRWError.new_argument_error .Read (idx : Int)), [])

/-- `write_function_argument` (`riscv64.rs` lines 133-150). `idx` is an `i32`
in the source, so an `Int`. Returns the result, the CPU state after the call,
and the list of writes delegated to the external accessor. -/
def write_function_argument (cpu : CPU) (conv : CallingConvention) (idx : Int)
    (val : GuestReg) : Except QemuRWError Unit × CPU × List (Regs × GuestReg) :=
  match QemuRWError.check_conv .Write .Cdecl conv with
  | .error e => (.error e, cpu, [])
  | .ok _ =>
    if idx = 0 then (.ok (), cpu.write_reg .A0 val, [(.A0, val)])
    else if idx = 1 then (.ok (), cpu.write_reg .A1 val, [(.A1, val)])
    else (.error (QemuRWError.new_argument_error .Write idx), cpu, [])

/-- `read_return_address` (`riscv64.rs` lines 93-98): fixed read of `Ra`. -/
def read_return_address (cpu : CPU) : Except QemuRWError GuestReg :=
  .ok (cpu.read_reg .Ra)

/-- `write_return_address` (`riscv64.rs` lines 100-105): fixed write of `Ra`. -/
def write_return_address (cpu : CPU) (val : GuestReg) : Except QemuRWError Unit × CPU :=
  (.ok (), cpu.write_reg .Ra val)

/-- The in-ABI-order integer argument registers of RISC-V, indices 0-7, as the
read path resolves them. -/
def argRegs : List Regs := [.A0, .A1, .A2, .A3, .A4, .A5, .A6, .A7]

/-- A concrete CPU register file used to instantiate theorems: each register
holds its own native index as a value. -/
def testCPU : CPU := ⟨fun r => r.to_index.toNat⟩

/-- C1 (counterexample): the exit-argument slot map is not injective — the
return-value and command slots are distinct, yet both are assigned `A0`. -/
theorem exit_arch_regs_ret_cmd_collision :
    (get_exit_arch_regs none).1 ExitArgs.Ret = (get_exit_arch_regs none).1 ExitArgs.Cmd ∧
      ExitArgs.Ret ≠ ExitArgs.Cmd :=
  ⟨rfl, by decide⟩

/-- C1 (amended): distinct exit-argument slots are assigned distinct registers,
except for the one collision present in the table: the return-value and command
slots share `A0`. -/
theorem exit_arch_regs_injective_except_ret_cmd (s t : ExitArgs) (hne : s ≠ t)
    (heq : (get_exit_arch_regs none).1 s = (get_exit_arch_regs none).1 t) :
    (s = ExitArgs.Ret ∧ t = ExitArgs.Cmd) ∨ (s = ExitArgs.Cmd ∧ t = ExitArgs.Ret) := by
  revert hne heq
  cases s <;> cases t <;> decide

/-- Witness for the amended C1 at the concrete pair (`Ret`, `Cmd`). -/
theorem exit_arch_regs_injective_except_ret_cmd_witness :
    (ExitArgs.Ret ≠ ExitArgs.Cmd ∧
      (get_exit_arch_regs none).1 ExitArgs.Ret = (get_exit_arch_regs none).1 ExitArgs.Cmd) ∧
    ((ExitArgs.Ret = ExitArgs.Ret ∧ ExitArgs.Cmd = ExitArgs.Cmd) ∨
      (ExitArgs.Ret = ExitArgs.Cmd ∧ ExitArgs.Cmd = ExitArgs.Ret)) :=
  ⟨⟨by decide, rfl⟩,
    exit_arch_regs_injective_except_ret_cmd ExitArgs.Ret ExitArgs.Cmd (by decide) rfl⟩

/-- C2: under the supported `Cdecl` convention, a read of argument `idx` in
0..=7 resolves to `A0`..`A7` in ABI order and returns the read of exactly that
register; any `u8` index at least 8 fails with InvalidArgumentIndex carrying
the index, and no register is read. -/
theorem read_function_argument_spec (cpu : CPU) (idx : Nat) (hu8 : idx < 256) :
    (idx < 8 →
      read_function_argument cpu .Cdecl idx =
        (.ok (cpu.read_reg (argRegs.getD idx .A0)), [argRegs.getD idx .A0])) ∧
    (8 ≤ idx →
      read_function_argument cpu .Cdecl idx =
        (.error (.wrongArgument .Read (idx : Int)), [])) := by
  constructor
  · intro h
    interval_cases idx <;> rfl
  · intro h
    obtain ⟨m, rfl⟩ : ∃ m, idx = m + 8 :=
      ⟨idx - 8, by omega⟩
    rfl

/-- Witness for C2 at index 3 (resolving to `A3`) on a concrete CPU. -/
theorem read_function_argument_spec_witness :
    (3 < 256) ∧
    ((3 < 8 →
      read_function_argument testCPU .Cdecl 3 =
        (.ok (testCPU.read_reg (argRegs.getD 3 .A0)), [argRegs.getD 3 .A0])) ∧
    (8 ≤ 3 →
      read_function_argument testCPU .Cdecl 3 =
        (.error (.wrongArgument .Read ((3 : Nat) : Int)), []))) :=
  ⟨by decide, read_function_argument_spec testCPU 3 (by decide)⟩

/-- C3: under the supported `Cdecl` convention, a write is delegated only for
indices 0 (to `A0`) and 1 (to `A1`); every other index — including 2, which is
valid for reads — fails with InvalidArgumentIndex carrying that index. -/
theorem write_function_argument_spec (cpu : CPU) (val : GuestReg) :
    write_function_argument cpu .Cdecl 0 val = (.ok (), cpu.write_reg .A0 val, [(.A0, val)]) ∧
    write_function_argument cpu .Cdecl 1 val = (.ok (), cpu.write_reg .A1 val, [(.A1, val)]) ∧
    (∀ idx : Int, idx ≠ 0 → idx ≠ 1 →
      write_function_argument cpu .Cdecl idx val =
        (.error (.wrongArgument .Write idx), cpu, [])) := by
  refine ⟨rfl, rfl, ?_⟩
  intro idx h0 h1
  simp [write_function_argument, QemuRWError.check_conv, QemuRWError.new_argument_error, h0, h1]

/-- Witness for C3 at index 2 on a concrete CPU: valid for reads, rejected for
writes. -/
theorem write_function_argument_spec_witness :
    write_function_argument testCPU .Cdecl 2 42 =
      (.error (.wrongArgument .Write 2), testCPU, []) :=
  (write_function_argument_spec testCPU 42).2.2 2 (by decide) (by decide)

/-- C4: whenever the supplied calling convention is not the supported `Cdecl`,
both accessors fail with ConventionMismatch carrying the expected and the
supplied conventions, no register is accessed, and the CPU is unchanged. -/
theorem convention_mismatch_spec (cpu : CPU) (conv : CallingConvention)
    (hconv : conv ≠ .Cdecl) (idx : Nat) (jdx : Int) (val : GuestReg) :
    read_function_argument cpu conv idx =
      (.error (.wrongCallingConvention .Read .Cdecl conv), []) ∧
    write_function_argument cpu conv jdx val =
      (.error (.wrongCallingConvention .Write .Cdecl conv), cpu, []) := by
  cases conv
  · exact absurd rfl hconv
  · exact ⟨rfl, rfl⟩

/-- Witness for C4 with the unsupported convention at concrete indices. -/
theorem convention_mismatch_spec_witness :
    (CallingConvention.Other ≠ CallingConvention.Cdecl) ∧
    (read_function_argument testCPU .Other 0 =
      (.error (.wrongCallingConvention .Read .Cdecl .Other), []) ∧
    write_function_argument testCPU .Other 0 7 =
      (.error (.wrongCallingConvention .Write .Cdecl .Other), testCPU, [])) :=
  ⟨by decide, convention_mismatch_spec testCPU .Other (by decide) 0 0 7⟩

/-- C5: for every valid native register index (0..=31; index 32 is the PC
sentinel outside the native range), converting to a `Regs` and back is the
identity: `to_index (from_index i) = i`. -/
theorem from_index_to_index_roundtrip (n : Nat) (h : n < 32) :
    (Regs.from_index n).map Regs.to_index = some (n : Int) := by
  interval_cases n <;> rfl

/-- Witness for C5 at the concrete native index 10 (`A0`). -/
theorem from_index_to_index_roundtrip_witness :
    (10 < 32) ∧ (Regs.from_index (10 : Nat)).map Regs.to_index = some ((10 : Nat) : Int) :=
  ⟨by decide, from_index_to_index_roundtrip 10 (by decide)⟩

/-- C6: every integer outside the closed set of valid identities (the native
range 0..=31 plus the PC sentinel 32) is rejected by `from_index`: the
conversion fails (`none` models the invalid-register error). -/
theorem from_index_out_of_range (i : Int) (h : i < 0 ∨ 32 < i) :
    Regs.from_index i = none := by
  unfold Regs.from_index
  repeat rw [if_neg (by omega)]

/-- Witness for C6 at the concrete out-of-range indices -7 and 33. -/
theorem from_index_out_of_range_witness :
    (((-7 : Int) < 0 ∨ 32 < (-7 : Int)) ∧ Regs.from_index (-7) = none) ∧
    (((33 : Int) < 0 ∨ 32 < (33 : Int)) ∧ Regs.from_index 33 = none) :=
  ⟨⟨by decide, from_index_out_of_range (-7) (by decide)⟩,
    ⟨by decide, from_index_out_of_range 33 (by decide)⟩⟩

/-- C7: the exit-argument slot map is total — every one of the eight slots has
exactly one assigned register — and the once-cell caching makes a call from any
cell state return a mapping that every subsequent call returns unchanged. -/
theorem get_exit_arch_regs_total_and_stable :
    (∀ s : ExitArgs, ∃! r : Regs, (get_exit_arch_regs none).1 s = r) ∧
    (∀ c : ExitRegsCache,
      get_exit_arch_regs (get_exit_arch_regs c).2 =
        ((get_exit_arch_regs c).1, (get_exit_arch_regs c).2)) := by
  constructor
  · intro s
    exact ⟨(get_exit_arch_regs none).1 s, rfl, fun y hy => hy.symm⟩
  · intro c
    cases c <;> rfl

/-- C8: the frame-pointer alias constant is the canonical `S0` register: the
same `Regs` value, the same integer identity, and that identity is `S0`'s
discriminant 8 — no new integer value is introduced. -/
theorem fp_alias_eq_s0 :
    Regs.Fp = Regs.S0 ∧ Regs.Fp.to_index = Regs.S0.to_index ∧ Regs.Fp.to_index = 8 :=
  ⟨rfl, rfl, rfl⟩

/-- C9: the write index is a signed integer (`i32`), and a negative index never
reaches the guest-CPU accessor — no write is delegated and the CPU is
unchanged under any convention; under the supported `Cdecl` convention the call
fails with InvalidArgumentIndex carrying that negative index. -/
theorem write_function_argument_negative_index (cpu : CPU) (conv : CallingConvention)
    (idx : Int) (val : GuestReg) (h : idx < 0) :
    ((write_function_argument cpu conv idx val).2.1 = cpu ∧
      (write_function_argument cpu conv idx val).2.2 = []) ∧
    (conv = .Cdecl →
      write_function_argument cpu conv idx val =
        (.error (.wrongArgument .Write idx), cpu, [])) := by
  have h0 : idx ≠ 0 := by omega
  have h1 : idx ≠ 1 := by omega
  cases conv
  · constructor
    · constructor <;>
        simp [write_function_argument, QemuRWError.check_conv,
          QemuRWError.new_argument_error, h0, h1]
    · intro _
      simp [write_function_argument, QemuRWError.check_conv,
        QemuRWError.new_argument_error, h0, h1]
  · constructor
    · exact ⟨rfl, rfl⟩
    · intro hc
      exact absurd hc (by decide)

/-- Witness for C9 at the concrete negative index -3. -/
theorem write_function_argument_negative_index_witness :
    ((-3 : Int) < 0) ∧
    (((write_function_argument testCPU .Cdecl (-3) 5).2.1 = testCPU ∧
      (write_function_argument testCPU .Cdecl (-3) 5).2.2 = []) ∧
    (CallingConvention.Cdecl = .Cdecl →
      write_function_argument testCPU .Cdecl (-3) 5 =
        (.error (.wrongArgument .Write (-3)), testCPU, []))) :=
  ⟨by decide, write_function_argument_negative_index testCPU .Cdecl (-3) 5 (by decide)⟩

/-- C10: `write_function_argument` is atomic on validation failure — whenever
its result is an error (ConventionMismatch or InvalidArgumentIndex, the only
error kinds it produces), no write was delegated to the accessor and the guest
CPU state is unchanged. -/
theorem write_function_argument_atomic_on_error (cpu : CPU) (conv : CallingConvention)
    (idx : Int) (val : GuestReg) (e : QemuRWError)
    (herr : (write_function_argument cpu conv idx val).1 = .error e) :
    (write_function_argument cpu conv idx val).2.1 = cpu ∧
    (write_function_argument cpu conv idx val).2.2 = [] := by
  cases conv
  · by_cases h0 : idx = 0
    · subst h0
      simp [write_function_argument, QemuRWError.check_conv] at herr
    · by_cases h1 : idx = 1
      · subst h1
        simp [write_function_argument, QemuRWError.check_conv] at herr
      · constructor <;>
          simp [write_function_argument, QemuRWError.check_conv,
            QemuRWError.new_argument_error, h0, h1]
  · exact ⟨rfl, rfl⟩

/-- Witness for C10 at the concrete rejected index 9. -/
theorem write_function_argument_atomic_on_error_witness :
    ((write_function_argument testCPU .Cdecl 9 1).1 =
      .error (.wrongArgument .Write 9)) ∧
    ((write_function_argument testCPU .Cdecl 9 1).2.1 = testCPU ∧
      (write_function_argument testCPU .Cdecl 9 1).2.2 = []) :=
  ⟨rfl, write_function_argument_atomic_on_error testCPU .Cdecl 9 1
    (.wrongArgument .Write 9) rfl⟩

end LibAFLQemu.RiscV64
